import Mathlib

/-! Ensoniq Mirage bus (bus.cpp): address decode of `CPU6809::read` and
`CPU6809::write`.

A shallow embedding of the memory bus of the emulator.  The globals of bus.cpp
(`PRG_RAM`, `WAV_RAM`, `page`), the ROM image and the state of the external
device models (VIA 6522, FDC 1770) form an explicit state record; `read` and
`write` are pure functions on it that also report the device-register calls
they make, in order, and the array cells they touch for the data byte.

Machine integers are natural numbers: `address` stands for a `uint16_t`, data
and memory cells for `uint8_t`.  The only arithmetic on them is
`address - X_START` under the guard `X_START <= address` and the masks
`& 0xFF00`, `& 0xFF`, `& 0b0011`, none of which can overflow.

`Serial.printf` output is console logging and is not part of the bus state:
the console calls of `read` and `write` are given by `readLog` and `writeLog`.
The diagnostics (`invalid`, `printRegs`, the trace hooks) act on a `Machine`,
which adds the CPU registers, the `debug` and `emergency` flags and the record
of console calls to the bus.
-/

namespace Mirage

/-- The address-map constants that bus.cpp takes from bus.h.  The header is not
among the sources, so the constants are parameters of the model. -/
structure AddressMap where
  ROM_START : Nat
  ROM_END : Nat
  RAM_START : Nat
  RAM_END : Nat
  WAV_START : Nat
  WAV_END : Nat
  CART_START : Nat
  CART_END : Nat
  VIA6522 : Nat
  FDC1770 : Nat
  DOC5503 : Nat

/-- The external device models declared in via.h and fdc.h (not among the
sources): register reads may change the device state and return a value,
register writes change the device state. -/
structure DeviceModel (σ : Type) where
  via_rreg : σ → Nat → Nat × σ
  via_wreg : σ → Nat → Nat → σ
  fdc_rreg : σ → Nat → Nat × σ
  fdc_wreg : σ → Nat → Nat → σ

/-- One call of a device-register function, with its arguments. -/
inductive DevCall where
  | via_rreg (reg : Nat)
  | via_wreg (reg val : Nat)
  | fdc_rreg (reg : Nat)
  | fdc_wreg (reg val : Nat)
  deriving DecidableEq, Repr

/-- An array cell loaded or stored for the data byte of an access. -/
inductive Cell where
  | rom (index : Nat)
  | prg (index : Nat)
  | wav (bank offset : Nat)
  deriving DecidableEq, Repr

/-- The mutable globals of bus.cpp together with the ROM image and the state of
the device models. -/
structure Bus (σ : Type) where
  ROM : Nat → Nat
  PRG_RAM : Nat → Nat
  WAV_RAM : Nat → Nat → Nat
  page : Nat
  dev : σ

/-- What a call of `CPU6809::read` yields: the returned byte, the state after
the call, the device calls made and the cells touched. -/
structure ReadResult (σ : Type) where
  out : Nat
  st : Bus σ
  calls : List DevCall
  cells : List Cell

/-- What a call of `CPU6809::write` yields: the state after the call, the
device calls made and the cells touched. -/
structure WriteResult (σ : Type) where
  st : Bus σ
  calls : List DevCall
  cells : List Cell

/-- The assignment `A[i] = v` on a one-dimensional array. -/
def store (mem : Nat → Nat) (i v : Nat) : Nat → Nat :=
  fun k => if k = i then v else mem k

/-- The assignment `A[p][i] = v` on a two-dimensional array. -/
def store2 (mem : Nat → Nat → Nat) (p i v : Nat) : Nat → Nat → Nat :=
  fun q k => if q = p ∧ k = i then v else mem q k

/-- The range test `(ROM_START <= address) && (address <= ROM_END)`. -/
def inROM (cfg : AddressMap) (address : Nat) : Prop :=
  cfg.ROM_START ≤ address ∧ address ≤ cfg.ROM_END

/-- The range test `(RAM_START <= address) && (address <= RAM_END)`. -/
def inRAM (cfg : AddressMap) (address : Nat) : Prop :=
  cfg.RAM_START ≤ address ∧ address ≤ cfg.RAM_END

/-- The range test `(WAV_START <= address) && (address <= WAV_END)`. -/
def inWAV (cfg : AddressMap) (address : Nat) : Prop :=
  cfg.WAV_START ≤ address ∧ address ≤ cfg.WAV_END

/-- The range test `(CART_START <= address) && (address <= CART_END)`. -/
def inCART (cfg : AddressMap) (address : Nat) : Prop :=
  cfg.CART_START ≤ address ∧ address ≤ cfg.CART_END

/-- The window test `(address & 0xFF00) == base`: the top byte selects the
window at `base`. -/
def inWindow (base address : Nat) : Prop :=
  address &&& 0xFF00 = base

instance (cfg : AddressMap) (a : Nat) : Decidable (inROM cfg a) := by
  unfold inROM; infer_instance

instance (cfg : AddressMap) (a : Nat) : Decidable (inRAM cfg a) := by
  unfold inRAM; infer_instance

instance (cfg : AddressMap) (a : Nat) : Decidable (inWAV cfg a) := by
  unfold inWAV; infer_instance

instance (cfg : AddressMap) (a : Nat) : Decidable (inCART cfg a) := by
  unfold inCART; infer_instance

instance (base a : Nat) : Decidable (inWindow base a) := by
  unfold inWindow; infer_instance

/-- The function `CPU6809::write(uint16_t address, uint8_t data)` (bus.cpp lines
148-187).
The branches are tried in the order of the source: RAM, WAV, VIA, FDC, DOC,
0xE100, 0xE400; the last three only log.  There is no ROM and no CART
branch. -/
def write {σ : Type} (cfg : AddressMap) (dev : DeviceModel σ) (s : Bus σ)
    (address data : Nat) : WriteResult σ :=
  if inRAM cfg address then
    { st := { s with PRG_RAM := store s.PRG_RAM (address - cfg.RAM_START) data },
      calls := [],
      cells := [Cell.prg (address - cfg.RAM_START)] }
  else if inWAV cfg address then
    let r := dev.via_rreg s.dev 0
    let page := r.1 &&& 3
    { st := { s with
                page := page,
                dev := r.2,
                WAV_RAM := store2 s.WAV_RAM page (address - cfg.WAV_START) data },
      calls := [DevCall.via_rreg 0],
      cells := [Cell.wav page (address - cfg.WAV_START)] }
  else if inWindow cfg.VIA6522 address then
    { st := { s with dev := dev.via_wreg s.dev (address &&& 0xFF) data },
      calls := [DevCall.via_wreg (address &&& 0xFF) data],
      cells := [] }
  else if inWindow cfg.FDC1770 address then
    { st := { s with dev := dev.fdc_wreg s.dev (address &&& 0xFF) data },
      calls := [DevCall.fdc_wreg (address &&& 0xFF) data],
      cells := [] }
  else if inWindow cfg.DOC5503 address then
    { st := s, calls := [], cells := [] }
  else if inWindow 0xE100 address then
    { st := s, calls := [], cells := [] }
  else if inWindow 0xE400 address then
    { st := s, calls := [], cells := [] }
  else
    { st := s, calls := [], cells := [] }

/-- The function `CPU6809::read(uint16_t address)` (bus.cpp lines 189-240).  The local
`uint8_t out;` is declared without an initialiser; `uninit` is the
indeterminate value it holds on entry, returned (as a byte) by the one branch
that never assigns it.  The branches are tried in the order of the source:
ROM, RAM, WAV, CART, VIA, FDC, DOC, 0xE400, CART again, default.  In the RAM
branch the call of `address_name` and the loads of the two cells after
`address` only feed `Serial.printf`; the data byte is
`PRG_RAM[address - RAM_START]`. -/
def read {σ : Type} (cfg : AddressMap) (dev : DeviceModel σ) (s : Bus σ)
    (uninit address : Nat) : ReadResult σ :=
  if inROM cfg address then
    { out := s.ROM (address - cfg.ROM_START), st := s, calls := [],
      cells := [Cell.rom (address - cfg.ROM_START)] }
  else if inRAM cfg address then
    { out := s.PRG_RAM (address - cfg.RAM_START), st := s, calls := [],
      cells := [Cell.prg (address - cfg.RAM_START)] }
  else if inWAV cfg address then
    let r := dev.via_rreg s.dev 0
    let page := r.1 &&& 3
    { out := s.WAV_RAM page (address - cfg.WAV_START),
      st := { s with page := page, dev := r.2 },
      calls := [DevCall.via_rreg 0],
      cells := [Cell.wav page (address - cfg.WAV_START)] }
  else if inCART cfg address then
    { out := 0xFF, st := s, calls := [], cells := [] }
  else if inWindow cfg.VIA6522 address then
    let r := dev.via_rreg s.dev (address &&& 0xFF)
    { out := r.1 % 256, st := { s with dev := r.2 },
      calls := [DevCall.via_rreg (address &&& 0xFF)], cells := [] }
  else if inWindow cfg.FDC1770 address then
    let r := dev.fdc_rreg s.dev (address &&& 0xFF)
    { out := r.1 % 256, st := { s with dev := r.2 },
      calls := [DevCall.fdc_rreg (address &&& 0xFF)], cells := [] }
  else if inWindow cfg.DOC5503 address then
    { out := 0xFF, st := s, calls := [], cells := [] }
  else if inWindow 0xE400 address then
    { out := uninit % 256, st := s, calls := [], cells := [] }
  else if inCART cfg address then
    { out := 0xFF, st := s, calls := [], cells := [] }
  else
    { out := 0xFF, st := s, calls := [], cells := [] }

/-- The memory map of the Mirage hardware, an example configuration used to
instantiate the theorems: sample RAM 0x0000-0x7FFF, program RAM 0x8000-0xBFFF
(it holds the vectors 0x800E..0xBF8C that bus.cpp names), cartridge
0xC000-0xDFFF, VIA 0xE2xx, FDC 0xE8xx, DOC 0xECxx, ROM 0xF000-0xFFFF. -/
def mirageMap : AddressMap :=
  { ROM_START := 0xF000, ROM_END := 0xFFFF,
    RAM_START := 0x8000, RAM_END := 0xBFFF,
    WAV_START := 0x0000, WAV_END := 0x7FFF,
    CART_START := 0xC000, CART_END := 0xDFFF,
    VIA6522 := 0xE200, FDC1770 := 0xE800, DOC5503 := 0xEC00 }

/-- A small device model used to instantiate the theorems.  Its state is the
pair (VIA port latch, FDC data latch); a register read returns the latch as a
byte and leaves it alone, a register write to register 0 replaces it. -/
def latchDev : DeviceModel (Nat × Nat) :=
  { via_rreg := fun d _ => (d.1 % 256, d),
    via_wreg := fun d reg val => if reg = 0 then (val, d.2) else d,
    fdc_rreg := fun d _ => (d.2 % 256, d),
    fdc_wreg := fun d reg val => if reg = 0 then (d.1, val) else d }

/-- A bus whose ROM holds 0xAB everywhere, whose RAM arrays are zeroed, and
whose device latches hold `via` and `fdc`. -/
def freshBus (via fdc : Nat) : Bus (Nat × Nat) :=
  { ROM := fun _ => 0xAB, PRG_RAM := fun _ => 0, WAV_RAM := fun _ _ => 0,
    page := 0, dev := (via, fdc) }

/-- The ranges of the example scenario of the spec (section 8, item 9): ROM
0xC000-0xFFFF, program RAM 0x0000-0x7FFF, sample RAM 0x8000-0xBEFF; the
cartridge takes the gap 0xBF00-0xBFFF and the device windows sit at their
hardware bases, which here fall inside the ROM range. -/
def scenarioMap : AddressMap :=
  { ROM_START := 0xC000, ROM_END := 0xFFFF,
    RAM_START := 0x0000, RAM_END := 0x7FFF,
    WAV_START := 0x8000, WAV_END := 0xBEFF,
    CART_START := 0xBF00, CART_END := 0xBFFF,
    VIA6522 := 0xE200, FDC1770 := 0xE800, DOC5503 := 0xEC00 }

/-- Modelled from the spec: bus.h, which fixes the region bounds, is not among
the sources.  The spec (section 3 and section 8, property 2) states that the
configured regions do not overlap; this is that statement for the three
memory ranges ROM, PRG_RAM and WAV_RAM, as a condition on the bounds. -/
def MemoryDisjoint (cfg : AddressMap) : Prop :=
  (cfg.ROM_END < cfg.RAM_START ∨ cfg.RAM_END < cfg.ROM_START) ∧
  (cfg.ROM_END < cfg.WAV_START ∨ cfg.WAV_END < cfg.ROM_START) ∧
  (cfg.RAM_END < cfg.WAV_START ∨ cfg.WAV_END < cfg.RAM_START)

instance (cfg : AddressMap) : Decidable (MemoryDisjoint cfg) := by
  unfold MemoryDisjoint; infer_instance

/-- Modelled from the spec: via.h and fdc.h are not among the sources.  The
spec (section 6) gives the register interface as `readRegister(index: u8) -> u8`:
every register read of the device model returns a byte. -/
def ByteValued {σ : Type} (dev : DeviceModel σ) : Prop :=
  ∀ (d : σ) (reg : Nat), (dev.via_rreg d reg).1 < 256 ∧ (dev.fdc_rreg d reg).1 < 256

/-- The regions of the documented decode order (spec section 3 and 4.4). -/
inductive Region where
  | rom | ram | wav | cart | via | fdc | doc | default
  deriving DecidableEq, Repr

/-- The documented decode order, following the spec's words: ROM, then
PRG_RAM, then WAV_RAM, then CART, then the VIA, FDC and DOC windows, then the
default; the first match wins. -/
def firstMatch (cfg : AddressMap) (address : Nat) : Region :=
  if inROM cfg address then Region.rom
  else if inRAM cfg address then Region.ram
  else if inWAV cfg address then Region.wav
  else if inCART cfg address then Region.cart
  else if inWindow cfg.VIA6522 address then Region.via
  else if inWindow cfg.FDC1770 address then Region.fdc
  else if inWindow cfg.DOC5503 address then Region.doc
  else Region.default

/-- The read result `r`, obtained from state `s` at `address`, is the answer of
region `g` and of no other: the byte is that region's, and the only device
call and the only cell touched are that region's (the WAV region reads VIA
register 0 for the bank).  For the default the byte is 0xFF outside the filter
window 0xE4xx. -/
def servedBy {σ : Type} (cfg : AddressMap) (dev : DeviceModel σ) (s : Bus σ)
    (address : Nat) (g : Region) (r : ReadResult σ) : Prop :=
  match g with
  | Region.rom =>
      r.out = s.ROM (address - cfg.ROM_START) ∧ r.st = s ∧ r.calls = [] ∧
      r.cells = [Cell.rom (address - cfg.ROM_START)]
  | Region.ram =>
      r.out = s.PRG_RAM (address - cfg.RAM_START) ∧ r.st = s ∧ r.calls = [] ∧
      r.cells = [Cell.prg (address - cfg.RAM_START)]
  | Region.wav =>
      r.out = s.WAV_RAM ((dev.via_rreg s.dev 0).1 &&& 3) (address - cfg.WAV_START) ∧
      r.st = { s with page := (dev.via_rreg s.dev 0).1 &&& 3, dev := (dev.via_rreg s.dev 0).2 } ∧
      r.calls = [DevCall.via_rreg 0] ∧
      r.cells = [Cell.wav ((dev.via_rreg s.dev 0).1 &&& 3) (address - cfg.WAV_START)]
  | Region.cart =>
      r.out = 0xFF ∧ r.st = s ∧ r.calls = [] ∧ r.cells = []
  | Region.via =>
      r.out = (dev.via_rreg s.dev (address &&& 0xFF)).1 % 256 ∧
      r.st = { s with dev := (dev.via_rreg s.dev (address &&& 0xFF)).2 } ∧
      r.calls = [DevCall.via_rreg (address &&& 0xFF)] ∧ r.cells = []
  | Region.fdc =>
      r.out = (dev.fdc_rreg s.dev (address &&& 0xFF)).1 % 256 ∧
      r.st = { s with dev := (dev.fdc_rreg s.dev (address &&& 0xFF)).2 } ∧
      r.calls = [DevCall.fdc_rreg (address &&& 0xFF)] ∧ r.cells = []
  | Region.doc =>
      r.out = 0xFF ∧ r.st = s ∧ r.calls = [] ∧ r.cells = []
  | Region.default =>
      r.st = s ∧ r.calls = [] ∧ r.cells = [] ∧
      (¬ inWindow 0xE400 address → r.out = 0xFF)

/-! ## The address namer and the diagnostics (bus.cpp lines 49-143, 254-331) -/

/-- The macro `firqvec` of bus.cpp. -/
abbrev firqvec : Nat := 0x800B

/-- The macro `osvec` of bus.cpp. -/
abbrev osvec : Nat := 0x800E

/-- The macro `irqentry` of bus.cpp. -/
abbrev irqentry : Nat := 0x893C

/-- The macro `firqentry` of bus.cpp. -/
abbrev firqentry : Nat := 0xA151

/-- The macro `osentry` of bus.cpp. -/
abbrev osentry : Nat := 0xB920

/-- The macro `fdcreadsector` of bus.cpp. -/
abbrev fdcreadsector : Nat := 0xF000

/-- The macro `fdcskipsector` of bus.cpp. -/
abbrev fdcskipsector : Nat := 0xF013

/-- The macro `fdcwritesector` of bus.cpp. -/
abbrev fdcwritesector : Nat := 0xF024

/-- The macro `fdcfillsector` of bus.cpp. -/
abbrev fdcfillsector : Nat := 0xF037

/-- The macro `fdcreadtrack` of bus.cpp. -/
abbrev fdcreadtrack : Nat := 0xF04A

/-- The macro `fdcwritetrack` of bus.cpp. -/
abbrev fdcwritetrack : Nat := 0xF058

/-- The macro `fdcrestore` of bus.cpp. -/
abbrev fdcrestore : Nat := 0xF066

/-- The macro `fdcseektrack` of bus.cpp. -/
abbrev fdcseektrack : Nat := 0xF06F

/-- The macro `fdcseekin` of bus.cpp. -/
abbrev fdcseekin : Nat := 0xF07D

/-- The macro `fdcseekout` of bus.cpp. -/
abbrev fdcseekout : Nat := 0xF086

/-- The macro `fdcforceinterrupt` of bus.cpp. -/
abbrev fdcforceinterrupt : Nat := 0xF08F

/-- The macro `countdown` of bus.cpp. -/
abbrev countdown : Nat := 0xF0A7

/-- The macro `nmivec` of bus.cpp. -/
abbrev nmivec : Nat := 0xF0B0

/-- The macro `coldstart` of bus.cpp. -/
abbrev coldstart : Nat := 0xF0F0

/-- The macro `runopsys` of bus.cpp. -/
abbrev runopsys : Nat := 0xF146

/-- The macro `hwsetup` of bus.cpp. -/
abbrev hwsetup : Nat := 0xF15D

/-- The macro `qchipsetup` of bus.cpp. -/
abbrev qchipsetup : Nat := 0xF1BB

/-- The macro `clearram` of bus.cpp. -/
abbrev clearram : Nat := 0xF1E5

/-- The macro `loadopsys` of bus.cpp. -/
abbrev loadopsys : Nat := 0xF20D

/-- The macro `readsysparams` of bus.cpp. -/
abbrev readsysparams : Nat := 0xF2AF

/-- The macro `checkos` of bus.cpp. -/
abbrev checkos : Nat := 0xF306

/-- The macro `showerrcode` of bus.cpp. -/
abbrev showerrcode : Nat := 0xF33C

/-- The macro `preparefd` of bus.cpp. -/
abbrev preparefd : Nat := 0xF38C

/-- The macro `loadossector` of bus.cpp. -/
abbrev loadossector : Nat := 0xF3AC

/-- The macro `gototrack` of bus.cpp. -/
abbrev gototrack : Nat := 0xF3F1

/-- The macro `seterrcode` of bus.cpp. -/
abbrev seterrcode : Nat := 0xF413

/-- The macro `saveparams` of bus.cpp. -/
abbrev saveparams : Nat := 0xF425

/-- The macro `restoreparams` of bus.cpp. -/
abbrev restoreparams : Nat := 0xF437

/-- The macro `readsector` of bus.cpp. -/
abbrev readsector : Nat := 0xF448

/-- The macro `writesector` of bus.cpp. -/
abbrev writesector : Nat := 0xF476

/-- The macro `gototrack2` of bus.cpp. -/
abbrev gototrack2 : Nat := 0xF4A4

/-- The macro `enablefd` of bus.cpp. -/
abbrev enablefd : Nat := 0xF4C6

/-- The macro `disablefd` of bus.cpp. -/
abbrev disablefd : Nat := 0xF4D6

/-- The function `address_name(uint16_t address)` (bus.cpp lines 93-143): the
chain of tests in the order of the source.  Line 133 reads
`address & 0xFF00 == 0x7f00`; in C++ `==` binds tighter than `&`, so the test
is `address & (0xFF00 == 0x7f00)`, the comparison being 1 or 0, and it
succeeds when the result is not zero. -/
def address_name (cfg : AddressMap) (address : Nat) : String :=
  if address = loadopsys then "LOAD OS IN PRG RAM"
  else if address = osentry then "*OS ENTRY"
  else if address = irqentry then "IRQ INTERRUPT ROUTINE ENTRY POINT"
  else if address = firqentry then "FIRQ INTERRUPT ROUTINE ENTRY POINT"
  else if address = firqvec then "firqvec"
  else if address = osvec then "*osvec"
  else if address = fdcreadsector then "fdcreadsector"
  else if address = fdcskipsector then "fdcskipsector"
  else if address = fdcwritesector then "fdcwritesector"
  else if address = fdcfillsector then "fdcfillsector"
  else if address = fdcreadtrack then "fdcreadtrack"
  else if address = fdcwritetrack then "fdcwritetrack"
  else if address = fdcrestore then "fdcrestore"
  else if address = fdcseektrack then "fdcseektrack"
  else if address = fdcseekin then "fdcseekin"
  else if address = fdcseekout then "fdcseekout"
  else if address = fdcforceinterrupt then "fdcforceinterrupt"
  else if address = countdown then "countdown"
  else if address = nmivec then "nmivec"
  else if address = coldstart then "coldstart"
  else if address = runopsys then "*runopsys"
  else if address = hwsetup then "hwsetup"
  else if address = qchipsetup then "qchipsetup"
  else if address = clearram then "clearram"
  else if address = readsysparams then "readysysparams"
  else if address = checkos then "checkos"
  else if address = showerrcode then "showerrorcode"
  else if address = preparefd then "preparefd"
  else if address = loadossector then "loadossector"
  else if address = gototrack then "gototrack"
  else if address = seterrcode then "seterrcode"
  else if address = saveparams then "saveparams"
  else if address = restoreparams then "restoreparams"
  else if address = readsector then "readsector"
  else if address = writesector then "writesector"
  else if address = gototrack2 then "gototrack2"
  else if address = enablefd then "enablefd"
  else if address = disablefd then "disablefd"
  else if (address &&& (if (0xFF00 : Nat) = 0x7f00 then 1 else 0)) ≠ 0 then "*cpucrash"
  else if inWAV cfg address then "wav data section"
  else if inWindow cfg.VIA6522 address then "VIA6522"
  else if inWindow cfg.FDC1770 address then "FDC1770"
  else if inWindow cfg.DOC5503 address then "DOC5503"
  else if inWindow 0xE100 address then "ACIA"
  else "?"

/-- The named single addresses with their labels, as a table: the value of each
macro tested by `address_name` and the label returned for it. -/
def namedAddresses : List (Nat × String) :=
  [
    (0xF20D, "LOAD OS IN PRG RAM"),
    (0xB920, "*OS ENTRY"),
    (0x893C, "IRQ INTERRUPT ROUTINE ENTRY POINT"),
    (0xA151, "FIRQ INTERRUPT ROUTINE ENTRY POINT"),
    (0x800B, "firqvec"),
    (0x800E, "*osvec"),
    (0xF000, "fdcreadsector"),
    (0xF013, "fdcskipsector"),
    (0xF024, "fdcwritesector"),
    (0xF037, "fdcfillsector"),
    (0xF04A, "fdcreadtrack"),
    (0xF058, "fdcwritetrack"),
    (0xF066, "fdcrestore"),
    (0xF06F, "fdcseektrack"),
    (0xF07D, "fdcseekin"),
    (0xF086, "fdcseekout"),
    (0xF08F, "fdcforceinterrupt"),
    (0xF0A7, "countdown"),
    (0xF0B0, "nmivec"),
    (0xF0F0, "coldstart"),
    (0xF146, "*runopsys"),
    (0xF15D, "hwsetup"),
    (0xF1BB, "qchipsetup"),
    (0xF1E5, "clearram"),
    (0xF2AF, "readysysparams"),
    (0xF306, "checkos"),
    (0xF33C, "showerrorcode"),
    (0xF38C, "preparefd"),
    (0xF3AC, "loadossector"),
    (0xF3F1, "gototrack"),
    (0xF413, "seterrcode"),
    (0xF425, "saveparams"),
    (0xF437, "restoreparams"),
    (0xF448, "readsector"),
    (0xF476, "writesector"),
    (0xF4A4, "gototrack2"),
    (0xF4C6, "enablefd"),
    (0xF4D6, "disablefd") ]

/-- The label of a named single address, looked up in the table; `none` when
the address is not a named entry. -/
def namedLabel (address : Nat) : Option String :=
  (namedAddresses.find? (fun p => p.1 == address)).map (fun p => p.2)

/-- The range labels in their documented priority: the WAV_RAM range first,
then the windows VIA6522, FDC1770, DOC5503 and 0xE100 by top byte, first match
in that order, else the default label. -/
def rangeLabel (cfg : AddressMap) (address : Nat) : String :=
  if inWAV cfg address then "wav data section"
  else if inWindow cfg.VIA6522 address then "VIA6522"
  else if inWindow cfg.FDC1770 address then "FDC1770"
  else if inWindow cfg.DOC5503 address then "DOC5503"
  else if inWindow 0xE100 address then "ACIA"
  else "?"

/-- An argument handed to `Serial.printf` after the format string. -/
inductive Arg where
  | num (n : Nat)
  | str (t : String)
  deriving DecidableEq, Repr

/-- One call on the `Serial` console. -/
inductive Out where
  | print (t : String)
  | println (t : String)
  | printf (fmt : String) (args : List Arg)
  | flush
  deriving DecidableEq, Repr

/-- The console calls of `CPU6809::write(address, data)`, in order (bus.cpp
lines 156-186); the branches are those of `write`. -/
def writeLog (cfg : AddressMap) (address data : Nat) : List Out :=
  if inRAM cfg address then
    (if address = 0x800F then
      [Out.printf "************* WRITING OS ENTRY JMP 0x800F = %02X *********************\n"
        [Arg.num data]] else []) ++
    (if address = 0x8010 then
      [Out.printf "*************                      0x8010 = %02X *********************\n"
        [Arg.num data]] else []) ++
    (if address = 0xBDEB then
      [Out.printf "************* WRITING TO 0xBDEB = %02X *********************\n"
        [Arg.num data]] else [])
  else if inWAV cfg address then
    []
  else if inWindow cfg.VIA6522 address then
    [Out.printf "Writing to VIA 6522 %04x %02x\n" [Arg.num address, Arg.num data]]
  else if inWindow cfg.FDC1770 address then
    [Out.printf "Writing to FDC 1770 %04x %02x\n" [Arg.num address, Arg.num data]]
  else if inWindow cfg.DOC5503 address then
    [Out.printf "Writing to DOC: Register %02X\n" [Arg.num (address &&& 0x00FF)]]
  else if inWindow 0xE100 address then
    [Out.printf "Writing to ACIA (not implemented) %c\n" [Arg.num data]]
  else if inWindow 0xE400 address then
    [Out.printf "=====>> FILTERS: %04x, %02x\n" [Arg.num address, Arg.num data]]
  else
    []

/-- The console calls of `CPU6809::read(address)`, in order (bus.cpp lines
193-237), on the bus state `s` the call starts from; the branches are those of
`read`.  `adrname[0] != '?'` is the test on the first character of the label. -/
def readLog {σ : Type} (cfg : AddressMap) (s : Bus σ) (address : Nat) : List Out :=
  if inROM cfg address then
    []
  else if inRAM cfg address then
    (if (address_name cfg address).front ≠ '?' then
      [Out.printf "  *** %04x : %s ***  \n"
        [Arg.num address, Arg.str (address_name cfg address)]] else []) ++
    (if address = osvec then
      [Out.printf "****  OS VEC ***  OS VEC ***  OS VEC ***  OS VEC ***  OS VEC %04x = %02x %02x\n"
        [Arg.num address, Arg.num (s.PRG_RAM (address - cfg.RAM_START + 1)),
         Arg.num (s.PRG_RAM (address - cfg.RAM_START + 2))]] else [])
  else if inWAV cfg address then
    []
  else if inCART cfg address then
    [Out.printf "Reading from Expansion Port: address = %X, DATA = FF\n"
      [Arg.num address, Arg.num 0xFF]]
  else if inWindow cfg.VIA6522 address then
    [Out.printf "Reading from VIA 6522\n" []]
  else if inWindow cfg.FDC1770 address then
    []
  else if inWindow cfg.DOC5503 address then
    [Out.printf "Reading from DOC 5503: Register %02X\n" [Arg.num (address &&& 0x00FF)]]
  else if inWindow 0xE400 address then
    [Out.printf "Reading from Filters addresses 0xE400 to 0xE41F (which is WRONG) ADDRESS = %04x\n"
      [Arg.num address]]
  else if inCART cfg address then
    [Out.printf "Reading from Expansion Port: uP_ADDR = %X, DATA = FF\n"
      [Arg.num address, Arg.num 0xFF]]
  else
    []

/-- The registers of the CPU that `printRegs` dumps. -/
structure Regs where
  ir : Nat
  pc : Nat
  u : Nat
  s : Nat
  x : Nat
  y : Nat
  dp : Nat
  a : Nat
  b : Nat
  cc : Nat

/-- The whole state the diagnostics of bus.cpp act on: the bus, the CPU
registers, the `debug` flag tested by the trace hooks, the global `emergency`
flag, and the calls made on the `Serial` console so far, oldest first. -/
structure Machine (σ : Type) where
  bus : Bus σ
  regs : Regs
  debug : Bool
  emergency : Bool
  serial : List Out

/-- Appends console calls to the record of the machine. -/
def emit {σ : Type} (m : Machine σ) (outs : List Out) : Machine σ :=
  { m with serial := m.serial ++ outs }

/-- The call `read(address)` on the whole machine: the bus access of `read`
together with its console calls. -/
def cpuRead {σ : Type} (cfg : AddressMap) (dev : DeviceModel σ) (m : Machine σ)
    (uninit address : Nat) : Nat × Machine σ :=
  let r := read cfg dev m.bus uninit address
  (r.out, { m with bus := r.st, serial := m.serial ++ readLog cfg m.bus address })

/-- The call `write(address, data)` on the whole machine: the bus access of
`write` together with its console calls. -/
def cpuWrite {σ : Type} (cfg : AddressMap) (dev : DeviceModel σ) (m : Machine σ)
    (address data : Nat) : Machine σ :=
  { m with bus := (write cfg dev m.bus address data).st,
           serial := m.serial ++ writeLog cfg address data }

/-- Modelled from the spec: `read_word` belongs to the CPU core, which is not
among the sources.  The spec (section 4.5) has the stack walk interpret the two
bytes at an offset as a 16-bit value in the machine's byte order; the 6809 is
big-endian, so the word is `read(address)` as high byte and
`read(address + 1)` as low byte, both addresses taken as `uint16_t`. -/
def read_word {σ : Type} (cfg : AddressMap) (dev : DeviceModel σ) (m : Machine σ)
    (uninit0 uninit1 address : Nat) : Nat × Machine σ :=
  let hi := cpuRead cfg dev m uninit0 (address % 65536)
  let lo := cpuRead cfg dev hi.2 uninit1 ((address + 1) % 65536)
  (((hi.1 <<< 8) ||| lo.1) % 65536, lo.2)

/-- The function `CPU6809::printRegs()` (bus.cpp lines 284-297). -/
def printRegs {σ : Type} (cfg : AddressMap) (m : Machine σ) : Machine σ :=
  emit m
    [ Out.println "Register dump:",
      Out.printf "IR %04x (%s)\n" [Arg.num m.regs.ir, Arg.str (address_name cfg m.regs.ir)],
      Out.printf "PC %04x (%s)\n" [Arg.num m.regs.pc, Arg.str (address_name cfg m.regs.pc)],
      Out.printf "U  %04x (%s)\n" [Arg.num m.regs.u, Arg.str (address_name cfg m.regs.u)],
      Out.printf "S  %04x (%s)\n" [Arg.num m.regs.s, Arg.str (address_name cfg m.regs.s)],
      Out.printf "X  %04x (%s)\n" [Arg.num m.regs.x, Arg.str (address_name cfg m.regs.x)],
      Out.printf "Y  %04x (%s)\n" [Arg.num m.regs.y, Arg.str (address_name cfg m.regs.y)],
      Out.printf "DP %02x\n" [Arg.num m.regs.dp],
      Out.printf "A  %02x\n" [Arg.num m.regs.a],
      Out.printf "B  %02x\n" [Arg.num m.regs.b],
      Out.printf "CC %02x\n" [Arg.num m.regs.cc],
      Out.println "" ]

/-- One round of the first loop of `invalid`:
`Serial.printf(" %02x", read(s + i))`.  The argument `s + i` becomes the
`uint16_t` parameter of `read`. -/
def stackByte {σ : Type} (cfg : AddressMap) (dev : DeviceModel σ)
    (uninit : Nat → Nat) (m : Machine σ) (i : Nat) : Machine σ :=
  let r := cpuRead cfg dev m (uninit i) ((m.regs.s + i) % 65536)
  emit r.2 [Out.printf " %02x" [Arg.num r.1]]

/-- One round of the second loop of `invalid`: the word at `s + i` is looked up
with `address_name` and printed when its label does not start with `?`. -/
def stackEntry {σ : Type} (cfg : AddressMap) (dev : DeviceModel σ)
    (uninit : Nat → Nat) (m : Machine σ) (i : Nat) : Machine σ :=
  let w := read_word cfg dev m (uninit (16 + 2 * i)) (uninit (17 + 2 * i)) (m.regs.s + i)
  if (address_name cfg w.1).front ≠ '?' then
    emit w.2 [Out.printf "[%04x] = %04x ~ %s\n"
      [Arg.num (m.regs.s + i), Arg.num w.1, Arg.str (address_name cfg w.1)]]
  else
    w.2

/-- The function `CPU6809::invalid(const char* message)` (bus.cpp lines
256-282); a null `message` is `none`.  Every `read` has its own local `out`;
`uninit k` is the indeterminate initial content of that local in the `k`-th
`read` the call makes. -/
def invalid {σ : Type} (cfg : AddressMap) (dev : DeviceModel σ) (m : Machine σ)
    (uninit : Nat → Nat) (message : Option String) : Machine σ :=
  let m1 := emit m
    [ Out.print "CPU error detected: ",
      (match message with
       | some text => Out.println text
       | none => Out.println "No message specified"),
      Out.println "EMERGENCY." ]
  let m2 := printRegs cfg m1
  let m3 := emit m2 [Out.printf "Stack:\n%04x:" [Arg.num m2.regs.s]]
  let m4 := (List.range 16).foldl (stackByte cfg dev uninit) m3
  let m5 := emit m4 [Out.println ""]
  let m6 := (List.range 16).foldl (stackEntry cfg dev uninit) m5
  let m7 := emit m6 [Out.flush]
  { m7 with emergency := true }

/-- The hook `CPU6809::on_branch` (bus.cpp lines 300-305). -/
def on_branch {σ : Type} (cfg : AddressMap) (m : Machine σ) (opcode : String)
    (src dst : Nat) : Machine σ :=
  if m.debug then
    emit m [Out.printf "branch with opcode %s from %04x to %04x\n"
      [Arg.str opcode, Arg.num src, Arg.num dst, Arg.str (address_name cfg dst)]]
  else m

/-- The hook `CPU6809::on_branch_subroutine` (bus.cpp lines 306-311). -/
def on_branch_subroutine {σ : Type} (cfg : AddressMap) (m : Machine σ) (opcode : String)
    (src dst : Nat) : Machine σ :=
  if m.debug then
    emit m [Out.printf "call with opcode %s from %04x to %04x\n"
      [Arg.str opcode, Arg.num src, Arg.num dst, Arg.str (address_name cfg dst)]]
  else m

/-- The hook `CPU6809::on_nmi` (bus.cpp lines 313-318). -/
def on_nmi {σ : Type} (cfg : AddressMap) (m : Machine σ) (src dst : Nat) : Machine σ :=
  if m.debug then
    emit m [Out.printf "NMI from %04x to %04x (%s)\n"
      [Arg.num src, Arg.num dst, Arg.str (address_name cfg dst)]]
  else m

/-- The hook `CPU6809::on_irq` (bus.cpp lines 320-325). -/
def on_irq {σ : Type} (cfg : AddressMap) (m : Machine σ) (src dst : Nat) : Machine σ :=
  if m.debug then
    emit m [Out.printf "IRQ from %04x to %04x (%s)\n"
      [Arg.num src, Arg.num dst, Arg.str (address_name cfg dst)]]
  else m

/-- The hook `CPU6809::on_firq` (bus.cpp lines 326-331). -/
def on_firq {σ : Type} (cfg : AddressMap) (m : Machine σ) (src dst : Nat) : Machine σ :=
  if m.debug then
    emit m [Out.printf "FIRQ from %04x to %04x (%s)\n"
      [Arg.num src, Arg.num dst, Arg.str (address_name cfg dst)]]
  else m

/-- The operations of bus.cpp that act on the machine, with their arguments. -/
inductive Op where
  | read (uninit address : Nat)
  | write (address data : Nat)
  | printRegs
  | on_branch (opcode : String) (src dst : Nat)
  | on_branch_subroutine (opcode : String) (src dst : Nat)
  | on_nmi (src dst : Nat)
  | on_irq (src dst : Nat)
  | on_firq (src dst : Nat)
  | invalid (uninit : Nat → Nat) (message : Option String)

/-- The machine after one operation. -/
def step {σ : Type} (cfg : AddressMap) (dev : DeviceModel σ) (m : Machine σ) :
    Op → Machine σ
  | Op.read uninit address => (cpuRead cfg dev m uninit address).2
  | Op.write address data => cpuWrite cfg dev m address data
  | Op.printRegs => printRegs cfg m
  | Op.on_branch opcode src dst => on_branch cfg m opcode src dst
  | Op.on_branch_subroutine opcode src dst => on_branch_subroutine cfg m opcode src dst
  | Op.on_nmi src dst => on_nmi cfg m src dst
  | Op.on_irq src dst => on_irq cfg m src dst
  | Op.on_firq src dst => on_firq cfg m src dst
  | Op.invalid uninit message => invalid cfg dev m uninit message

/-- The machine after a sequence of operations, first to last. -/
def run {σ : Type} (cfg : AddressMap) (dev : DeviceModel σ) (m : Machine σ)
    (ops : List Op) : Machine σ :=
  ops.foldl (step cfg dev) m

/-- The bounds of the arrays of bus.cpp, `PRG_RAM[RAM_END - RAM_START + 1]` and
`WAV_RAM[4][WAV_END - WAV_START + 1]`, as a condition on a touched cell; a ROM
index is held against the extent of the ROM range. -/
def cellInBounds (cfg : AddressMap) : Cell → Prop
  | Cell.rom index => index ≤ cfg.ROM_END - cfg.ROM_START
  | Cell.prg index => index ≤ cfg.RAM_END - cfg.RAM_START
  | Cell.wav bank offset => bank ≤ 3 ∧ offset ≤ cfg.WAV_END - cfg.WAV_START

/-- A machine around `freshBus` with all registers zero except the stack
pointer, used to instantiate the theorems. -/
def freshMachine (via fdc sp : Nat) (debug emergency : Bool) : Machine (Nat × Nat) :=
  { bus := freshBus via fdc,
    regs := { ir := 0, pc := 0, u := 0, s := sp, x := 0, y := 0, dp := 0, a := 0,
              b := 0, cc := 0 },
    debug := debug, emergency := emergency, serial := [] }

/-- The machine `m2` differs from `m1` at most in the console record, and not
even there when the `debug` flag of `m1` is off: the bus (PRG_RAM, WAV_RAM,
page, ROM, devices), the CPU registers and the flags are those of `m1`. -/
def pureObserver {σ : Type} (m1 m2 : Machine σ) : Prop :=
  m2.bus = m1.bus ∧ m2.bus.PRG_RAM = m1.bus.PRG_RAM ∧ m2.bus.WAV_RAM = m1.bus.WAV_RAM ∧
  m2.bus.page = m1.bus.page ∧ m2.regs = m1.regs ∧ m2.emergency = m1.emergency ∧
  m2.debug = m1.debug ∧ (m1.debug = false → m2.serial = m1.serial)

/-- The seven region tests of the bus at one address, in the documented order:
ROM, PRG_RAM, WAV_RAM, CART, and the VIA, FDC and DOC windows. -/
def regionMatches (cfg : AddressMap) (address : Nat) : List Bool :=
  [decide (inROM cfg address), decide (inRAM cfg address), decide (inWAV cfg address),
   decide (inCART cfg address), decide (inWindow cfg.VIA6522 address),
   decide (inWindow cfg.FDC1770 address), decide (inWindow cfg.DOC5503 address)]

/-- Modelled from the spec: bus.h, which fixes the region bounds and the window
bases, is not among the sources.  The spec (section 3 and section 8, property
2) states that no two configured regions overlap: for every address, at most
one of ROM, RAM, WAV_RAM, CART and each device window matches. -/
def RegionsExclusive (cfg : AddressMap) : Prop :=
  ∀ address : Nat, (regionMatches cfg address).count true ≤ 1

/-! ## Helper lemmas -/

theorem land_FF00_eq (a : Nat) : a &&& 0xFF00 = a / 256 % 256 * 256 := by
  apply Nat.eq_of_testBit_eq
  intro i
  have h : (0xFF00 : Nat) = 2 ^ 8 * (2 ^ 8 - 1) := by norm_num
  have h2 : a / 256 % 256 * 256 = 2 ^ 8 * (a >>> 8 % 2 ^ 8) := by
    rw [Nat.shiftRight_eq_div_pow]; norm_num [Nat.mul_comm]
  rw [Nat.testBit_and, h, h2, Nat.testBit_mul_pow_two, Nat.testBit_mul_pow_two,
    Nat.testBit_two_pow_sub_one, Nat.testBit_mod_two_pow, Nat.testBit_shiftRight]
  by_cases h8 : 8 ≤ i
  · have h9 : (8 : Nat) + (i - 8) = i := by omega
    simp [h8, h9, Bool.and_comm]
  · simp [h8]

theorem regionsExclusive_mirageMap : RegionsExclusive mirageMap := by
  intro a
  have hw := land_FF00_eq a
  simp only [regionMatches, inROM, inRAM, inWAV, inCART, inWindow, mirageMap, hw,
    List.count_cons, List.count_nil, beq_iff_eq, decide_eq_true_eq]
  split_ifs <;> omega

theorem unmatched_of_rom_or_cart {cfg : AddressMap} {a : Nat}
    (hex : RegionsExclusive cfg) (h : inROM cfg a ∨ inCART cfg a) :
    ¬ inRAM cfg a ∧ ¬ inWAV cfg a ∧ ¬ inWindow cfg.VIA6522 a ∧
    ¬ inWindow cfg.FDC1770 a ∧ ¬ inWindow cfg.DOC5503 a := by
  have hx := hex a
  simp only [regionMatches, List.count_cons, List.count_nil, beq_iff_eq,
    decide_eq_true_eq] at hx
  refine ⟨?_, ?_, ?_, ?_, ?_⟩ <;> intro hc <;> rcases h with h | h <;>
    simp only [h, hc, if_true] at hx <;> split_ifs at hx <;> omega


theorem not_inROM_of_inRAM {cfg : AddressMap} {a : Nat} (hd : MemoryDisjoint cfg)
    (ha : inRAM cfg a) : ¬ inROM cfg a := by
  unfold MemoryDisjoint at hd
  unfold inRAM at ha
  unfold inROM
  omega

theorem not_inROM_of_inWAV {cfg : AddressMap} {a : Nat} (hd : MemoryDisjoint cfg)
    (ha : inWAV cfg a) : ¬ inROM cfg a := by
  unfold MemoryDisjoint at hd
  unfold inWAV at ha
  unfold inROM
  omega

theorem not_inRAM_of_inWAV {cfg : AddressMap} {a : Nat} (hd : MemoryDisjoint cfg)
    (ha : inWAV cfg a) : ¬ inRAM cfg a := by
  unfold MemoryDisjoint at hd
  unfold inWAV at ha
  unfold inRAM
  omega

theorem byteValued_latchDev : ByteValued latchDev := by
  intro d reg
  exact ⟨Nat.mod_lt _ (by decide), Nat.mod_lt _ (by decide)⟩

/-! ## C1: RAM round trip -/

/-- C1. RAM round trip: with the memory ranges disjoint as the spec requires of
the configured bounds, for every address `a` in the PRG_RAM range and every
byte `v`, `write(a, v)` followed immediately by `read(a)` returns `v`. -/
theorem ram_round_trip {σ : Type} (cfg : AddressMap) (dev : DeviceModel σ) (s : Bus σ)
    (uninit a v : Nat) (hd : MemoryDisjoint cfg) (ha : inRAM cfg a) :
    (read cfg dev (write cfg dev s a v).st uninit a).out = v := by
  have hrom : ¬ inROM cfg a := not_inROM_of_inRAM hd ha
  simp [read, write, ha, hrom, store]

theorem ram_round_trip_witness :
    MemoryDisjoint mirageMap ∧ inRAM mirageMap 0x8123 ∧
    (read mirageMap latchDev
      (write mirageMap latchDev (freshBus 0 0) 0x8123 0x42).st 0 0x8123).out = 0x42 :=
  ⟨by decide, by decide,
   ram_round_trip mirageMap latchDev (freshBus 0 0) 0 0x8123 0x42 (by decide) (by decide)⟩

/-! ## C2: WAV bank isolation -/

/-- C2. WAV bank isolation: with the memory ranges disjoint, for every address
`a` in the WAV_RAM range, every byte `v` and banks `k ≠ j`: after `write(a, v)`
performed while `via_rreg(0) & 3 = k`, a `read(a)` performed while the
register selects `j` returns the byte bank `j` held at `a` before the write
(the same byte the read would have returned without the write), and a
later `read(a)` performed once the register selects `k` again returns `v`.
`d2` and `d3` are the device states at the two reads. -/
theorem wav_bank_isolation {σ : Type} (cfg : AddressMap) (dev : DeviceModel σ)
    (s : Bus σ) (d2 d3 : σ) (uninit a v k j : Nat)
    (hd : MemoryDisjoint cfg) (ha : inWAV cfg a)
    (hk : (dev.via_rreg s.dev 0).1 &&& 3 = k)
    (hj : (dev.via_rreg d2 0).1 &&& 3 = j)
    (hkj : k ≠ j)
    (hk3 : (dev.via_rreg d3 0).1 &&& 3 = k) :
    (read cfg dev { (write cfg dev s a v).st with dev := d2 } uninit a).out
        = s.WAV_RAM j (a - cfg.WAV_START) ∧
    (read cfg dev { (write cfg dev s a v).st with dev := d2 } uninit a).out
        = (read cfg dev { s with dev := d2 } uninit a).out ∧
    (read cfg dev
        { (read cfg dev { (write cfg dev s a v).st with dev := d2 } uninit a).st
            with dev := d3 } uninit a).out = v := by
  have hrom : ¬ inROM cfg a := not_inROM_of_inWAV hd ha
  have hram : ¬ inRAM cfg a := not_inRAM_of_inWAV hd ha
  have hjk : ¬ j = k := fun h => hkj h.symm
  simp [read, write, ha, hrom, hram, store2, hk, hj, hk3, hjk]

theorem wav_bank_isolation_witness :
    MemoryDisjoint mirageMap ∧ inWAV mirageMap 0x1000 ∧
    (read mirageMap latchDev
      { (write mirageMap latchDev (freshBus 2 0) 0x1000 0x11).st with dev := (1, 0) }
      0 0x1000).out = (freshBus 2 0).WAV_RAM 1 (0x1000 - mirageMap.WAV_START) ∧
    (read mirageMap latchDev
      { (read mirageMap latchDev
          { (write mirageMap latchDev (freshBus 2 0) 0x1000 0x11).st with dev := (1, 0) }
          0 0x1000).st with dev := (6, 0) } 0 0x1000).out = 0x11 :=
  have h := wav_bank_isolation mirageMap latchDev (freshBus 2 0) (1, 0) (6, 0) 0 0x1000 0x11 2 1
    (by decide) (by decide) (by decide) (by decide) (by decide) (by decide)
  ⟨by decide, by decide, h.1, h.2.2⟩

/-! ## C3: ROM immutability -/

/-- C3. ROM immutability: for every address `a` in the ROM range and every
byte `v`, `read(a)` after `write(a, v)` returns `ROM[a - ROM_START]`, the byte
`read(a)` returned before the write; and no write, to any address, changes
the ROM contents. -/
theorem rom_immutable {σ : Type} (cfg : AddressMap) (dev : DeviceModel σ) (s : Bus σ)
    (uninit a v : Nat) (ha : inROM cfg a) :
    (read cfg dev (write cfg dev s a v).st uninit a).out = s.ROM (a - cfg.ROM_START) ∧
    (read cfg dev s uninit a).out = s.ROM (a - cfg.ROM_START) ∧
    ∀ b w : Nat, (write cfg dev s b w).st.ROM = s.ROM := by
  refine ⟨?_, ?_, ?_⟩
  · simp only [read, ha, if_true]
    unfold write
    split_ifs <;> rfl
  · simp [read, ha]
  · intro b w
    unfold write
    split_ifs <;> rfl

theorem rom_immutable_witness :
    inROM mirageMap 0xF00D ∧
    (read mirageMap latchDev (write mirageMap latchDev (freshBus 0 0) 0xF00D 0).st 0 0xF00D).out
      = (freshBus 0 0).ROM (0xF00D - mirageMap.ROM_START) :=
  ⟨by decide, (rom_immutable mirageMap latchDev (freshBus 0 0) 0 0xF00D 0 (by decide)).1⟩

/-! ## C4: unmapped access -/

/-- C4. Unmapped access default, at the filter window: address 0xE400 lies in
none of the ROM, PRG_RAM, WAV_RAM and CART ranges of the hardware map and its
top byte is none of the three device-window bases, yet `read(0xE400)` does not
return 0xFF: the 0xE400 branch of `read` only logs and never assigns `out`, so
the byte returned is whatever `out` held on entry (here 0). -/
theorem read_filter_window_not_open_bus :
    ¬ inROM mirageMap 0xE400 ∧ ¬ inRAM mirageMap 0xE400 ∧
    ¬ inWAV mirageMap 0xE400 ∧ ¬ inCART mirageMap 0xE400 ∧
    ¬ inWindow mirageMap.VIA6522 0xE400 ∧ ¬ inWindow mirageMap.FDC1770 0xE400 ∧
    ¬ inWindow mirageMap.DOC5503 0xE400 ∧
    (read mirageMap latchDev (freshBus 0 0) 0 0xE400).out = 0 ∧
    (read mirageMap latchDev (freshBus 0 0) 0 0xE400).out ≠ 0xFF := by
  decide

/-! ## C5: read decode order -/

/-- C5. Read decode order: for any choice of region bounds, any state and any
address, `read(address)` is served by the first matching region in the order
ROM, PRG_RAM, WAV_RAM, CART, VIA window, FDC window, DOC window, default: it
returns that region's byte and makes no device call and touches no cell other
than that region's own, whatever later regions the address also matches. -/
theorem read_decode_order {σ : Type} (cfg : AddressMap) (dev : DeviceModel σ)
    (s : Bus σ) (uninit address : Nat) :
    servedBy cfg dev s address (firstMatch cfg address)
      (read cfg dev s uninit address) := by
  unfold firstMatch read
  split_ifs <;> simp_all [servedBy]

/-! ## C6: writes to ROM and CART -/

/-- C6. Writes to ROM and CART are no-ops: with the regions exclusive as the
spec requires of the configured bounds, for every address in the ROM range or
in the CART range and every byte `v`, `write(address, v)` leaves PRG_RAM and
all four WAV_RAM banks unchanged (the whole state is unchanged) and makes no
device call, so neither `via_wreg` nor `fdc_wreg` is called. -/
theorem write_rom_cart_noop {σ : Type} (cfg : AddressMap) (dev : DeviceModel σ)
    (s : Bus σ) (a v : Nat)
    (hex : RegionsExclusive cfg) (h : inROM cfg a ∨ inCART cfg a) :
    (write cfg dev s a v).st = s ∧
    (write cfg dev s a v).st.PRG_RAM = s.PRG_RAM ∧
    (write cfg dev s a v).st.WAV_RAM = s.WAV_RAM ∧
    (write cfg dev s a v).calls = [] := by
  obtain ⟨hram, hwav, hvia, hfdc, _⟩ := unmatched_of_rom_or_cart hex h
  unfold write
  simp only [hram, hwav, hvia, hfdc, if_false]
  split_ifs <;> simp

theorem write_rom_cart_noop_witness :
    RegionsExclusive mirageMap ∧
    (inROM mirageMap 0xF000 ∨ inCART mirageMap 0xF000) ∧
    (write mirageMap latchDev (freshBus 3 0) 0xF000 0x55).st = freshBus 3 0 ∧
    (inROM mirageMap 0xC000 ∨ inCART mirageMap 0xC000) ∧
    (write mirageMap latchDev (freshBus 3 0) 0xC000 0x55).st = freshBus 3 0 ∧
    (write mirageMap latchDev (freshBus 3 0) 0xC000 0x55).calls = [] :=
  ⟨regionsExclusive_mirageMap, by decide,
   (write_rom_cart_noop mirageMap latchDev (freshBus 3 0) 0xF000 0x55
      regionsExclusive_mirageMap (by decide)).1,
   by decide,
   (write_rom_cart_noop mirageMap latchDev (freshBus 3 0) 0xC000 0x55
      regionsExclusive_mirageMap (by decide)).1,
   (write_rom_cart_noop mirageMap latchDev (freshBus 3 0) 0xC000 0x55
      regionsExclusive_mirageMap (by decide)).2.2.2⟩

/-! ## C7: device forwarding -/

/-- C7. Device forwarding: for every address `a` in none of the memory regions
decoded earlier (ROM, PRG_RAM, WAV_RAM, CART), with device models that return
bytes: if the top byte of `a` selects the VIA window, `write(a, v)` calls
`via_wreg` exactly once, with `(a & 0xFF, v)`, and makes no other device call,
and `read(a)` returns exactly the value of `via_rreg(a & 0xFF)`, its only
device call; if it selects the FDC window (and not the VIA window, tried
first), the same holds with `fdc_wreg` and `fdc_rreg`. -/
theorem device_forwarding {σ : Type} (cfg : AddressMap) (dev : DeviceModel σ)
    (s : Bus σ) (uninit a v : Nat)
    (hbyte : ByteValued dev)
    (hrom : ¬ inROM cfg a) (hram : ¬ inRAM cfg a)
    (hwav : ¬ inWAV cfg a) (hcart : ¬ inCART cfg a) :
    (inWindow cfg.VIA6522 a →
      (write cfg dev s a v).calls = [DevCall.via_wreg (a &&& 0xFF) v] ∧
      (write cfg dev s a v).st = { s with dev := dev.via_wreg s.dev (a &&& 0xFF) v } ∧
      (read cfg dev s uninit a).out = (dev.via_rreg s.dev (a &&& 0xFF)).1 ∧
      (read cfg dev s uninit a).calls = [DevCall.via_rreg (a &&& 0xFF)]) ∧
    (¬ inWindow cfg.VIA6522 a → inWindow cfg.FDC1770 a →
      (write cfg dev s a v).calls = [DevCall.fdc_wreg (a &&& 0xFF) v] ∧
      (write cfg dev s a v).st = { s with dev := dev.fdc_wreg s.dev (a &&& 0xFF) v } ∧
      (read cfg dev s uninit a).out = (dev.fdc_rreg s.dev (a &&& 0xFF)).1 ∧
      (read cfg dev s uninit a).calls = [DevCall.fdc_rreg (a &&& 0xFF)]) := by
  constructor
  · intro hvia
    have hb := (hbyte s.dev (a &&& 0xFF)).1
    simp [read, write, hrom, hram, hwav, hcart, hvia, Nat.mod_eq_of_lt hb]
  · intro hvia hfdc
    have hb := (hbyte s.dev (a &&& 0xFF)).2
    simp [read, write, hrom, hram, hwav, hcart, hvia, hfdc, Nat.mod_eq_of_lt hb]

theorem device_forwarding_witness :
    ByteValued latchDev ∧ inWindow mirageMap.VIA6522 0xE200 ∧
    (write mirageMap latchDev (freshBus 7 9) 0xE200 0x55).calls
      = [DevCall.via_wreg (0xE200 &&& 0xFF) 0x55] ∧
    (read mirageMap latchDev (freshBus 7 9) 0 0xE200).out
      = (latchDev.via_rreg (freshBus 7 9).dev (0xE200 &&& 0xFF)).1 ∧
    inWindow mirageMap.FDC1770 0xE803 ∧
    (write mirageMap latchDev (freshBus 7 9) 0xE803 0x55).calls
      = [DevCall.fdc_wreg (0xE803 &&& 0xFF) 0x55] ∧
    (read mirageMap latchDev (freshBus 7 9) 0 0xE803).out
      = (latchDev.fdc_rreg (freshBus 7 9).dev (0xE803 &&& 0xFF)).1 :=
  have hv := (device_forwarding mirageMap latchDev (freshBus 7 9) 0 0xE200 0x55
    byteValued_latchDev (by decide) (by decide) (by decide) (by decide)).1 (by decide)
  have hf := (device_forwarding mirageMap latchDev (freshBus 7 9) 0 0xE803 0x55
    byteValued_latchDev (by decide) (by decide) (by decide) (by decide)).2
    (by decide) (by decide)
  ⟨byteValued_latchDev, by decide, hv.1, hv.2.2.1, by decide, hf.1, hf.2.2.1⟩

/-! ## C8: the bank index is recomputed at every access -/

/-- C8. Bank index recomputed, never cached: with the memory ranges disjoint,
for every address in the WAV_RAM range the cell read or written is
`WAV_RAM[via_rreg(0) & 3][address - WAV_START]`, with `via_rreg(0)` called
during that very access; and runs of `read` (or of `write`) from two states
that differ only in the global `page` return the same byte and end in the
same state. -/
theorem bank_recomputed {σ : Type} (cfg : AddressMap) (dev : DeviceModel σ)
    (s : Bus σ) (uninit a v p : Nat)
    (hd : MemoryDisjoint cfg) (ha : inWAV cfg a) :
    (read cfg dev s uninit a).out
      = s.WAV_RAM ((dev.via_rreg s.dev 0).1 &&& 3) (a - cfg.WAV_START) ∧
    (read cfg dev s uninit a).cells
      = [Cell.wav ((dev.via_rreg s.dev 0).1 &&& 3) (a - cfg.WAV_START)] ∧
    (read cfg dev s uninit a).calls = [DevCall.via_rreg 0] ∧
    (write cfg dev s a v).st.WAV_RAM
      = store2 s.WAV_RAM ((dev.via_rreg s.dev 0).1 &&& 3) (a - cfg.WAV_START) v ∧
    (write cfg dev s a v).cells
      = [Cell.wav ((dev.via_rreg s.dev 0).1 &&& 3) (a - cfg.WAV_START)] ∧
    (write cfg dev s a v).calls = [DevCall.via_rreg 0] ∧
    (read cfg dev { s with page := p } uninit a).out = (read cfg dev s uninit a).out ∧
    (read cfg dev { s with page := p } uninit a).st = (read cfg dev s uninit a).st ∧
    (write cfg dev { s with page := p } a v).st = (write cfg dev s a v).st := by
  have hrom : ¬ inROM cfg a := not_inROM_of_inWAV hd ha
  have hram : ¬ inRAM cfg a := not_inRAM_of_inWAV hd ha
  simp [read, write, ha, hrom, hram]

theorem bank_recomputed_witness :
    MemoryDisjoint mirageMap ∧ inWAV mirageMap 0x0042 ∧
    (read mirageMap latchDev (freshBus 3 0) 0 0x0042).cells = [Cell.wav 3 0x42] ∧
    (read mirageMap latchDev { freshBus 3 0 with page := 1 } 0 0x0042).st
      = (read mirageMap latchDev (freshBus 3 0) 0 0x0042).st :=
  have h := bank_recomputed mirageMap latchDev (freshBus 3 0) 0 0x0042 0x99 1
    (by decide) (by decide)
  ⟨by decide, by decide, h.2.1, h.2.2.2.2.2.2.2.1⟩

/-! ## C9: CART reads -/

/-- C9. CART reads are fixed: for every address in the CART range that is in
none of the ROM, PRG_RAM and WAV_RAM ranges, `read(address)` returns 0xFF in
every state and for every device model, makes no device call and leaves the
state as it was. -/
theorem cart_read_fixed {σ : Type} (cfg : AddressMap) (dev : DeviceModel σ)
    (s : Bus σ) (uninit a : Nat)
    (hcart : inCART cfg a)
    (hrom : ¬ inROM cfg a) (hram : ¬ inRAM cfg a) (hwav : ¬ inWAV cfg a) :
    (read cfg dev s uninit a).out = 0xFF ∧
    (read cfg dev s uninit a).calls = [] ∧
    (read cfg dev s uninit a).st = s := by
  simp [read, hcart, hrom, hram, hwav]

theorem cart_read_fixed_witness :
    inCART mirageMap 0xC123 ∧
    (read mirageMap latchDev (freshBus 5 6) 0x33 0xC123).out = 0xFF ∧
    (read mirageMap latchDev (freshBus 5 6) 0x33 0xC123).calls = [] :=
  have h := cart_read_fixed mirageMap latchDev (freshBus 5 6) 0x33 0xC123
    (by decide) (by decide) (by decide) (by decide)
  ⟨by decide, h.1, h.2.1⟩

/-! ## C10: the sound-chip window -/

/-- C10. The sound-chip window is a stub: for every address whose top byte
selects the DOC5503 window and that no earlier region matches (ROM, PRG_RAM,
WAV_RAM, CART, VIA window, FDC window), `read(address)` returns 0xFF without
any device call, and `write(address, v)` leaves the whole state unchanged
(PRG_RAM, WAV_RAM, page, devices) and makes no device call. -/
theorem doc_window_stub {σ : Type} (cfg : AddressMap) (dev : DeviceModel σ)
    (s : Bus σ) (uninit a v : Nat)
    (hdoc : inWindow cfg.DOC5503 a)
    (hrom : ¬ inROM cfg a) (hram : ¬ inRAM cfg a)
    (hwav : ¬ inWAV cfg a) (hcart : ¬ inCART cfg a)
    (hvia : ¬ inWindow cfg.VIA6522 a) (hfdc : ¬ inWindow cfg.FDC1770 a) :
    (read cfg dev s uninit a).out = 0xFF ∧
    (read cfg dev s uninit a).calls = [] ∧
    (read cfg dev s uninit a).st = s ∧
    (write cfg dev s a v).st = s ∧
    (write cfg dev s a v).calls = [] := by
  simp [read, write, hdoc, hrom, hram, hwav, hcart, hvia, hfdc]

theorem doc_window_stub_witness :
    inWindow mirageMap.DOC5503 0xEC1F ∧
    (read mirageMap latchDev (freshBus 5 6) 0x33 0xEC1F).out = 0xFF ∧
    (write mirageMap latchDev (freshBus 5 6) 0xEC1F 0x77).st = freshBus 5 6 ∧
    (write mirageMap latchDev (freshBus 5 6) 0xEC1F 0x77).calls = [] :=
  have h := doc_window_stub mirageMap latchDev (freshBus 5 6) 0x33 0xEC1F 0x77
    (by decide) (by decide) (by decide) (by decide) (by decide) (by decide) (by decide)
  ⟨by decide, h.1, h.2.2.2.1, h.2.2.2.2⟩

/-! ## Further properties of the decode -/

/-- The filter window on the read side: for every address whose top byte is
0xE4 and that no earlier branch of `read` matches, the byte returned is the
indeterminate initial content of the local `out`; the state is unchanged and
no device call is made. -/
theorem read_filter_window_returns_uninit {σ : Type} (cfg : AddressMap)
    (dev : DeviceModel σ) (s : Bus σ) (uninit a : Nat)
    (hflt : inWindow 0xE400 a)
    (hrom : ¬ inROM cfg a) (hram : ¬ inRAM cfg a)
    (hwav : ¬ inWAV cfg a) (hcart : ¬ inCART cfg a)
    (hvia : ¬ inWindow cfg.VIA6522 a) (hfdc : ¬ inWindow cfg.FDC1770 a)
    (hdoc : ¬ inWindow cfg.DOC5503 a) :
    (read cfg dev s uninit a).out = uninit % 256 ∧
    (read cfg dev s uninit a).st = s ∧
    (read cfg dev s uninit a).calls = [] := by
  simp [read, hflt, hrom, hram, hwav, hcart, hvia, hfdc, hdoc]

theorem read_filter_window_returns_uninit_witness :
    inWindow 0xE400 0xE41F ∧
    (read mirageMap latchDev (freshBus 0 0) 0x5A 0xE41F).out = 0x5A % 256 :=
  ⟨by decide,
   (read_filter_window_returns_uninit mirageMap latchDev (freshBus 0 0) 0x5A 0xE41F
      (by decide) (by decide) (by decide) (by decide) (by decide) (by decide)
      (by decide) (by decide)).1⟩

/-- Unmapped access outside the filter window: for every address in none of
the ROM, PRG_RAM, WAV_RAM and CART ranges whose top byte is none of the three
device-window bases, `write(address, v)` leaves the state unchanged and makes
no device call, `read(address)` leaves the state unchanged and makes no device
call, and when the top byte is not 0xE4 either `read(address)` returns 0xFF. -/
theorem unmapped_access_default {σ : Type} (cfg : AddressMap)
    (dev : DeviceModel σ) (s : Bus σ) (uninit a v : Nat)
    (hrom : ¬ inROM cfg a) (hram : ¬ inRAM cfg a)
    (hwav : ¬ inWAV cfg a) (hcart : ¬ inCART cfg a)
    (hvia : ¬ inWindow cfg.VIA6522 a) (hfdc : ¬ inWindow cfg.FDC1770 a)
    (hdoc : ¬ inWindow cfg.DOC5503 a) :
    (write cfg dev s a v).st = s ∧
    (write cfg dev s a v).calls = [] ∧
    (read cfg dev s uninit a).st = s ∧
    (read cfg dev s uninit a).calls = [] ∧
    (¬ inWindow 0xE400 a → (read cfg dev s uninit a).out = 0xFF) := by
  unfold read write
  simp only [hrom, hram, hwav, hcart, hvia, hfdc, hdoc, if_false]
  split_ifs <;> simp_all

theorem unmapped_access_default_witness :
    ¬ inWindow 0xE400 0xE105 ∧
    (read mirageMap latchDev (freshBus 0 0) 0x5A 0xE105).out = 0xFF ∧
    (write mirageMap latchDev (freshBus 0 0) 0xE105 0x41).st = freshBus 0 0 :=
  have h := unmapped_access_default mirageMap latchDev (freshBus 0 0) 0x5A 0xE105 0x41
    (by decide) (by decide) (by decide) (by decide) (by decide) (by decide) (by decide)
  ⟨by decide, h.2.2.2.2 (by decide), h.1⟩

/-- An address that matches two regions: in the ranges of the spec's example
scenario 0xE200 is in the ROM range and in the VIA window.  `read` returns the
ROM byte and makes no device call. -/
theorem read_rom_shadows_via_window :
    inROM scenarioMap 0xE200 ∧ inWindow scenarioMap.VIA6522 0xE200 ∧
    (read scenarioMap latchDev (freshBus 7 0) 0 0xE200).out = 0xAB ∧
    (read scenarioMap latchDev (freshBus 7 0) 0 0xE200).calls = [] := by
  decide

/-- The example scenario of the spec (section 8, item 9), on its ranges: a
write to ROM address 0xC000 does not change what is read there; RAM address
0x1234 reads back 0x42 after it is written; and after writing 0x11 to WAV
address 0x8000 in bank 0 and 0x22 in bank 1, bank 0 reads 0x11 and bank 1
reads 0x22. -/
theorem spec_example_scenario :
    (read scenarioMap latchDev
      (write scenarioMap latchDev (freshBus 0 0) 0xC000 0x00).st 0 0xC000).out = 0xAB ∧
    (read scenarioMap latchDev
      (write scenarioMap latchDev (freshBus 0 0) 0x1234 0x42).st 0 0x1234).out = 0x42 ∧
    (read scenarioMap latchDev
      { (write scenarioMap latchDev
          { (write scenarioMap latchDev (freshBus 0 0) 0x8000 0x11).st with dev := (1, 0) }
          0x8000 0x22).st with dev := (0, 0) } 0 0x8000).out = 0x11 ∧
    (read scenarioMap latchDev
      { (write scenarioMap latchDev
          { (write scenarioMap latchDev (freshBus 0 0) 0x8000 0x11).st with dev := (1, 0) }
          0x8000 0x22).st with dev := (1, 0) } 0 0x8000).out = 0x22 := by
  decide

/-! ## C11-C13: the address namer -/

theorem address_name_of_named (cfg : AddressMap) :
    ∀ p ∈ namedAddresses, address_name cfg p.1 = p.2 := by
  intro p hp
  simp only [namedAddresses, List.mem_cons, List.mem_singleton, List.not_mem_nil,
    or_false] at hp
  rcases hp with h | h | h | h | h | h | h | h | h | h | h | h | h | h | h | h | h | h | h |
    h | h | h | h | h | h | h | h | h | h | h | h | h | h | h | h | h | h | h <;>
  (subst h; rfl)

theorem address_name_of_unnamed (cfg : AddressMap) (a : Nat)
    (h : ∀ p ∈ namedAddresses, p.1 ≠ a) :
    address_name cfg a = rangeLabel cfg a := by
  simp only [namedAddresses, List.mem_cons, List.mem_singleton, List.not_mem_nil,
    or_false, forall_eq_or_imp, forall_eq, ne_eq] at h
  obtain ⟨h1, h2, h3, h4, h5, h6, h7, h8, h9, h10, h11, h12, h13, h14, h15, h16, h17,
    h18, h19, h20, h21, h22, h23, h24, h25, h26, h27, h28, h29, h30, h31, h32, h33,
    h34, h35, h36, h37, h38⟩ := h
  simp [address_name, rangeLabel, Ne.symm h1, Ne.symm h2, Ne.symm h3, Ne.symm h4,
    Ne.symm h5, Ne.symm h6, Ne.symm h7, Ne.symm h8, Ne.symm h9, Ne.symm h10,
    Ne.symm h11, Ne.symm h12, Ne.symm h13, Ne.symm h14, Ne.symm h15, Ne.symm h16,
    Ne.symm h17, Ne.symm h18, Ne.symm h19, Ne.symm h20, Ne.symm h21, Ne.symm h22,
    Ne.symm h23, Ne.symm h24, Ne.symm h25, Ne.symm h26, Ne.symm h27, Ne.symm h28,
    Ne.symm h29, Ne.symm h30, Ne.symm h31, Ne.symm h32, Ne.symm h33, Ne.symm h34,
    Ne.symm h35, Ne.symm h36, Ne.symm h37, Ne.symm h38]

theorem namedLabel_of_unnamed (a : Nat) (h : ∀ p ∈ namedAddresses, p.1 ≠ a) :
    namedLabel a = none := by
  unfold namedLabel
  rw [Option.map_eq_none', List.find?_eq_none]
  intro p hp
  simpa using h p hp

theorem address_name_cases (cfg : AddressMap) (a : Nat) :
    (∃ p ∈ namedAddresses, address_name cfg a = p.2) ∨
    address_name cfg a = rangeLabel cfg a := by
  by_cases h : ∀ p ∈ namedAddresses, p.1 ≠ a
  · exact Or.inr (address_name_of_unnamed cfg a h)
  · push_neg at h
    obtain ⟨p, hp, rfl⟩ := h
    exact Or.inl ⟨p, hp, address_name_of_named cfg p hp⟩

theorem rangeLabel_ne (cfg : AddressMap) (a : Nat) :
    rangeLabel cfg a ≠ "" ∧ rangeLabel cfg a ≠ "*cpucrash" := by
  unfold rangeLabel
  split_ifs <;> exact ⟨by decide, by decide⟩

theorem namedAddresses_labels_ne :
    ∀ p ∈ namedAddresses, p.2 ≠ "" ∧ p.2 ≠ "*cpucrash" := by
  decide

theorem address_name_ne_empty (cfg : AddressMap) (a : Nat) :
    address_name cfg a ≠ "" := by
  rcases address_name_cases cfg a with ⟨p, hp, h⟩ | h
  · rw [h]; exact (namedAddresses_labels_ne p hp).1
  · rw [h]; exact (rangeLabel_ne cfg a).1

/-- C11. AddressNamer totality and known labels: `address_name` is a total
function of the address (and of the constants of the address map, not of any
state) that never returns the empty string; the table of named single
addresses has 38 entries with pairwise different addresses, and for any
region bounds each of them resolves to its own label, among them
0xB920 to "*OS ENTRY", 0xF20D to "LOAD OS IN PRG RAM" and 0x800E to "*osvec";
and every address that is not a named entry, lies outside the WAV_RAM range
and whose top byte selects none of the labelled windows (VIA6522, FDC1770,
DOC5503, 0xE100) resolves to the default label "?". -/
theorem address_name_known_labels (cfg : AddressMap) :
    namedAddresses.length = 38 ∧
    (namedAddresses.map Prod.fst).Nodup ∧
    (∀ p ∈ namedAddresses, address_name cfg p.1 = p.2) ∧
    address_name cfg 0xB920 = "*OS ENTRY" ∧
    address_name cfg 0xF20D = "LOAD OS IN PRG RAM" ∧
    address_name cfg 0x800E = "*osvec" ∧
    (∀ a : Nat, address_name cfg a ≠ "") ∧
    (∀ a : Nat, (∀ p ∈ namedAddresses, p.1 ≠ a) → ¬ inWAV cfg a →
      ¬ inWindow cfg.VIA6522 a → ¬ inWindow cfg.FDC1770 a →
      ¬ inWindow cfg.DOC5503 a → ¬ inWindow 0xE100 a →
      address_name cfg a = "?") := by
  refine ⟨rfl, by decide, address_name_of_named cfg, rfl, rfl, rfl, ?_, ?_⟩
  · exact address_name_ne_empty cfg
  · intro a hn hwav hvia hfdc hdoc hacia
    rw [address_name_of_unnamed cfg a hn]
    simp [rangeLabel, hwav, hvia, hfdc, hdoc, hacia]

theorem address_name_known_labels_witness :
    address_name mirageMap 0xF4D6 = "disablefd" ∧
    address_name mirageMap 0x1234 ≠ "" ∧
    address_name mirageMap 0xC123 = "?" :=
  have h := address_name_known_labels mirageMap
  ⟨h.2.2.1 (0xF4D6, "disablefd") (by decide), h.2.2.2.2.2.2.1 0x1234,
   h.2.2.2.2.2.2.2 0xC123 (by decide) (by decide) (by decide) (by decide) (by decide)
     (by decide)⟩

/-- C12. The crash-signature check, at an address whose high byte is 0x7F:
0x7F00 is not a named single address and `(0x7F00 & 0xFF00) == 0x7F00` holds,
yet `address_name(0x7F00)` is not "*cpucrash": line 133 parses as
`address & (0xFF00 == 0x7f00)`, which is `address & 0`, so the check never
fires and the address falls through to the range labels ("wav data section"
in the hardware map, "?" where 0x7F00 is outside the WAV_RAM range). -/
theorem crash_check_dead_at_0x7F00 :
    0x7F00 &&& 0xFF00 = 0x7F00 ∧
    (∀ p ∈ namedAddresses, p.1 ≠ 0x7F00) ∧
    address_name mirageMap 0x7F00 = "wav data section" ∧
    address_name scenarioMap 0x7F00 = "?" ∧
    address_name mirageMap 0x7F00 ≠ "*cpucrash" := by
  refine ⟨by decide, by decide, rfl, rfl, by decide⟩

/-- C13. AddressNamer range priority: for any region bounds and any address,
`address_name` is the label of the table of named single addresses when the
address is in it, whatever ranges it also lies in; otherwise it is the range
label: "wav data section" in the WAV_RAM range, else "VIA6522", "FDC1770",
"DOC5503" or "ACIA" when the top byte selects VIA6522, FDC1770, DOC5503 or
0xE100, first match in that order, else "?". -/
theorem address_name_priority (cfg : AddressMap) (a : Nat) :
    address_name cfg a = (namedLabel a).getD (rangeLabel cfg a) := by
  by_cases h : ∀ p ∈ namedAddresses, p.1 ≠ a
  · rw [namedLabel_of_unnamed a h, address_name_of_unnamed cfg a h]
    rfl
  · push_neg at h
    obtain ⟨p, hp, rfl⟩ := h
    simp only [namedAddresses, List.mem_cons, List.mem_singleton, List.not_mem_nil,
      or_false] at hp
    rcases hp with h | h | h | h | h | h | h | h | h | h | h | h | h | h | h | h | h | h |
      h | h | h | h | h | h | h | h | h | h | h | h | h | h | h | h | h | h | h | h <;>
    (subst h; rfl)

/-! ## C14: the fault transition -/

theorem step_emergency {σ : Type} (cfg : AddressMap) (dev : DeviceModel σ)
    (m : Machine σ) (op : Op) :
    (∃ uninit message, op = Op.invalid uninit message ∧
        (step cfg dev m op).emergency = true) ∨
    (step cfg dev m op).emergency = m.emergency := by
  cases op with
  | read uninit address => exact Or.inr rfl
  | write address data => exact Or.inr rfl
  | printRegs => exact Or.inr rfl
  | on_branch opcode src dst =>
      right; simp only [step, on_branch]; split_ifs <;> rfl
  | on_branch_subroutine opcode src dst =>
      right; simp only [step, on_branch_subroutine]; split_ifs <;> rfl
  | on_nmi src dst =>
      right; simp only [step, on_nmi]; split_ifs <;> rfl
  | on_irq src dst =>
      right; simp only [step, on_irq]; split_ifs <;> rfl
  | on_firq src dst =>
      right; simp only [step, on_firq]; split_ifs <;> rfl
  | invalid uninit message => exact Or.inl ⟨uninit, message, rfl, rfl⟩

theorem step_keeps_emergency {σ : Type} (cfg : AddressMap) (dev : DeviceModel σ)
    (m : Machine σ) (op : Op) (h : m.emergency = true) :
    (step cfg dev m op).emergency = true := by
  rcases step_emergency cfg dev m op with ⟨_, _, _, h2⟩ | h2
  · exact h2
  · rw [h2]; exact h

theorem run_keeps_emergency {σ : Type} (cfg : AddressMap) (dev : DeviceModel σ)
    (ops : List Op) : ∀ m : Machine σ, m.emergency = true →
    (run cfg dev m ops).emergency = true := by
  induction ops with
  | nil => intro m h; exact h
  | cons op rest ih =>
      intro m h
      exact ih (step cfg dev m op) (step_keeps_emergency cfg dev m op h)

/-- C14. The fault transition is one-way: for every message, the null message
included, and every prior state, after `invalid(message)` the emergency flag
is true, also when it was true before, and it stays true under every further
sequence of operations of this core; each operation (read, write, printRegs,
on_branch, on_branch_subroutine, on_nmi, on_irq, on_firq, invalid) keeps a true
flag true, and an operation after which the flag differs from before is a call
of `invalid`. -/
theorem fault_transition_one_way {σ : Type} (cfg : AddressMap) (dev : DeviceModel σ)
    (m : Machine σ) :
    (∀ (uninit : Nat → Nat) (message : Option String),
      (invalid cfg dev m uninit message).emergency = true) ∧
    (∀ (uninit : Nat → Nat) (message : Option String) (ops : List Op),
      (run cfg dev (invalid cfg dev m uninit message) ops).emergency = true) ∧
    (∀ op : Op, m.emergency = true → (step cfg dev m op).emergency = true) ∧
    (∀ op : Op, (step cfg dev m op).emergency ≠ m.emergency →
      ∃ uninit message, op = Op.invalid uninit message) := by
  refine ⟨fun _ _ => rfl, ?_, ?_, ?_⟩
  · intro uninit message ops
    exact run_keeps_emergency cfg dev ops _ rfl
  · intro op h
    exact step_keeps_emergency cfg dev m op h
  · intro op hne
    rcases step_emergency cfg dev m op with ⟨u, msg, hop, _⟩ | h2
    · exact ⟨u, msg, hop⟩
    · exact absurd h2 hne

theorem fault_transition_one_way_witness :
    (invalid mirageMap latchDev (freshMachine 1 0 0x8100 false false)
      (fun _ => 0) none).emergency = true ∧
    (run mirageMap latchDev
      (invalid mirageMap latchDev (freshMachine 1 0 0x8100 false false) (fun _ => 0)
        (some "bad opcode"))
      [Op.write 0x8000 1, Op.read 0 0x8000, Op.on_irq 0 0x893C, Op.printRegs]).emergency
      = true :=
  have h := fault_transition_one_way mirageMap latchDev (freshMachine 1 0 0x8100 false false)
  ⟨h.1 (fun _ => 0) none,
   h.2.1 (fun _ => 0) (some "bad opcode")
     [Op.write 0x8000 1, Op.read 0 0x8000, Op.on_irq 0 0x893C, Op.printRegs]⟩

/-! ## C15: the trace hooks -/

/-- C15. The trace hooks are pure observers: for each of on_branch,
on_branch_subroutine, on_nmi, on_irq and on_firq and all arguments, the call
leaves PRG_RAM, WAV_RAM, the page variable (the whole bus), the CPU registers
and the emergency flag unchanged, and when the debug flag is false it makes no
call on the console. -/
theorem trace_hooks_pure_observers {σ : Type} (cfg : AddressMap) (m : Machine σ)
    (opcode : String) (src dst : Nat) :
    pureObserver m (on_branch cfg m opcode src dst) ∧
    pureObserver m (on_branch_subroutine cfg m opcode src dst) ∧
    pureObserver m (on_nmi cfg m src dst) ∧
    pureObserver m (on_irq cfg m src dst) ∧
    pureObserver m (on_firq cfg m src dst) := by
  unfold pureObserver on_branch on_branch_subroutine on_nmi on_irq on_firq emit
  cases hd : m.debug <;> simp [hd]

theorem trace_hooks_pure_observers_witness :
    (on_branch mirageMap (freshMachine 1 0 0x8100 false false) "BRA" 0xF000 0xB920).serial
      = [] ∧
    (on_firq mirageMap (freshMachine 1 0 0x8100 true true) 0xF000 0xA151).emergency
      = true :=
  ⟨(trace_hooks_pure_observers mirageMap (freshMachine 1 0 0x8100 false false)
      "BRA" 0xF000 0xB920).1.2.2.2.2.2.2.2 rfl,
   (trace_hooks_pure_observers mirageMap (freshMachine 1 0 0x8100 true true)
      "" 0xF000 0xA151).2.2.2.2.2.2.2.2.2.1⟩

/-! ## C16: what a read changes -/

/-- C16, as stated, fails: in the hardware map 0x1000 is in the WAV_RAM range;
from a state whose `page` is 0 while VIA register 0 selects bank 1,
`read(0x1000)` leaves `page` at 1: the WAV branch of `read` assigns
`page = via_rreg(0) & 0b0011`. -/
theorem read_wav_changes_page :
    inWAV mirageMap 0x1000 ∧
    (freshBus 1 0).page = 0 ∧
    (read mirageMap latchDev (freshBus 1 0) 0 0x1000).st.page = 1 := by
  decide

/-- C16, amended. For every address in the PRG_RAM or WAV_RAM range,
`read(address)` leaves every cell of PRG_RAM and of all four WAV_RAM banks
(and the ROM) unchanged; the global `page` is unchanged when the address is
served by the ROM or PRG_RAM branch, and is overwritten with `via_rreg(0) & 3`
when the address is served by the WAV_RAM branch. -/
theorem read_memory_frame {σ : Type} (cfg : AddressMap) (dev : DeviceModel σ)
    (s : Bus σ) (uninit a : Nat) (h : inRAM cfg a ∨ inWAV cfg a) :
    (read cfg dev s uninit a).st.PRG_RAM = s.PRG_RAM ∧
    (read cfg dev s uninit a).st.WAV_RAM = s.WAV_RAM ∧
    (read cfg dev s uninit a).st.ROM = s.ROM ∧
    (inROM cfg a ∨ inRAM cfg a → (read cfg dev s uninit a).st.page = s.page) ∧
    (¬ inROM cfg a → ¬ inRAM cfg a →
      (read cfg dev s uninit a).st.page = (dev.via_rreg s.dev 0).1 &&& 3) := by
  by_cases hrom : inROM cfg a
  · simp [read, hrom]
  · by_cases hram : inRAM cfg a
    · simp [read, hrom, hram]
    · have hwav : inWAV cfg a := h.resolve_left hram
      simp [read, hrom, hram, hwav]

theorem read_memory_frame_witness :
    (inRAM mirageMap 0x8042 ∨ inWAV mirageMap 0x8042) ∧
    (read mirageMap latchDev (freshBus 1 0) 0 0x8042).st.page = (freshBus 1 0).page ∧
    (inRAM mirageMap 0x1000 ∨ inWAV mirageMap 0x1000) ∧
    (read mirageMap latchDev (freshBus 1 0) 0 0x1000).st.WAV_RAM = (freshBus 1 0).WAV_RAM ∧
    (read mirageMap latchDev (freshBus 1 0) 0 0x1000).st.page
      = (latchDev.via_rreg (freshBus 1 0).dev 0).1 &&& 3 :=
  have h1 := read_memory_frame mirageMap latchDev (freshBus 1 0) 0 0x8042 (by decide)
  have h2 := read_memory_frame mirageMap latchDev (freshBus 1 0) 0 0x1000 (by decide)
  ⟨by decide, h1.2.2.2.1 (by decide), by decide, h2.2.1,
   h2.2.2.2.2 (by decide) (by decide)⟩

/-! ## C17: in-bounds dispatch -/

theorem read_cells_cases {σ : Type} (cfg : AddressMap) (dev : DeviceModel σ)
    (s : Bus σ) (uninit a : Nat) :
    (read cfg dev s uninit a).cells = [] ∨
    (inROM cfg a ∧ (read cfg dev s uninit a).cells = [Cell.rom (a - cfg.ROM_START)]) ∨
    (inRAM cfg a ∧ (read cfg dev s uninit a).cells = [Cell.prg (a - cfg.RAM_START)]) ∨
    (inWAV cfg a ∧ (read cfg dev s uninit a).cells
      = [Cell.wav ((dev.via_rreg s.dev 0).1 &&& 3) (a - cfg.WAV_START)]) := by
  unfold read
  split_ifs <;> simp [*]

theorem write_cases {σ : Type} (cfg : AddressMap) (dev : DeviceModel σ)
    (s : Bus σ) (a v : Nat) :
    (¬ inRAM cfg a ∧ ¬ inWAV cfg a ∧ (write cfg dev s a v).cells = [] ∧
      (write cfg dev s a v).st.PRG_RAM = s.PRG_RAM ∧
      (write cfg dev s a v).st.WAV_RAM = s.WAV_RAM) ∨
    (inRAM cfg a ∧ (write cfg dev s a v).cells = [Cell.prg (a - cfg.RAM_START)] ∧
      (write cfg dev s a v).st.PRG_RAM = store s.PRG_RAM (a - cfg.RAM_START) v ∧
      (write cfg dev s a v).st.WAV_RAM = s.WAV_RAM ∧
      (write cfg dev s a v).calls = []) ∨
    (¬ inRAM cfg a ∧ inWAV cfg a ∧
      (write cfg dev s a v).cells
        = [Cell.wav ((dev.via_rreg s.dev 0).1 &&& 3) (a - cfg.WAV_START)] ∧
      (write cfg dev s a v).st.PRG_RAM = s.PRG_RAM ∧
      (write cfg dev s a v).st.WAV_RAM
        = store2 s.WAV_RAM ((dev.via_rreg s.dev 0).1 &&& 3) (a - cfg.WAV_START) v ∧
      (write cfg dev s a v).calls = [DevCall.via_rreg 0]) := by
  unfold write
  split_ifs <;> simp [*]

/-- C17. In-bounds dispatch: for every address, byte and state, every cell that
`read(address)` or `write(address, v)` touches for the data byte is inside its
array: a PRG_RAM index is `address - RAM_START` and at most
`RAM_END - RAM_START`, a WAV_RAM offset is `address - WAV_START` and at most
`WAV_END - WAV_START`, and the bank index `via_rreg(0) & 3` is at most 3
whatever the device returns.  The cells reported are the cells used: `read`
touches at most one cell, and `write` changes no cell of PRG_RAM or WAV_RAM
other than those it reports. -/
theorem dispatch_in_bounds {σ : Type} (cfg : AddressMap) (dev : DeviceModel σ)
    (s : Bus σ) (uninit a v : Nat) :
    (∀ c ∈ (read cfg dev s uninit a).cells, cellInBounds cfg c) ∧
    (∀ c ∈ (write cfg dev s a v).cells, cellInBounds cfg c) ∧
    (dev.via_rreg s.dev 0).1 &&& 3 ≤ 3 ∧
    (∀ c ∈ (read cfg dev s uninit a).cells ++ (write cfg dev s a v).cells,
      c = Cell.rom (a - cfg.ROM_START) ∨ c = Cell.prg (a - cfg.RAM_START) ∨
      c = Cell.wav ((dev.via_rreg s.dev 0).1 &&& 3) (a - cfg.WAV_START)) ∧
    (read cfg dev s uninit a).cells.length ≤ 1 ∧
    (∀ i : Nat, Cell.prg i ∉ (write cfg dev s a v).cells →
      (write cfg dev s a v).st.PRG_RAM i = s.PRG_RAM i) ∧
    (∀ p i : Nat, Cell.wav p i ∉ (write cfg dev s a v).cells →
      (write cfg dev s a v).st.WAV_RAM p i = s.WAV_RAM p i) := by
  have hb : (dev.via_rreg s.dev 0).1 &&& 3 ≤ 3 := Nat.and_le_right
  have hr := read_cells_cases cfg dev s uninit a
  have hw := write_cases cfg dev s a v
  have hrb : ∀ c ∈ (read cfg dev s uninit a).cells, cellInBounds cfg c ∧
      (c = Cell.rom (a - cfg.ROM_START) ∨ c = Cell.prg (a - cfg.RAM_START) ∨
       c = Cell.wav ((dev.via_rreg s.dev 0).1 &&& 3) (a - cfg.WAV_START)) := by
    intro c hc
    rcases hr with h | ⟨hin, h⟩ | ⟨hin, h⟩ | ⟨hin, h⟩ <;> rw [h] at hc <;>
      simp only [List.mem_singleton, List.not_mem_nil] at hc
    · subst hc; unfold inROM at hin; exact ⟨by simp only [cellInBounds]; omega, by simp⟩
    · subst hc; unfold inRAM at hin; exact ⟨by simp only [cellInBounds]; omega, by simp⟩
    · subst hc; unfold inWAV at hin
      exact ⟨⟨hb, by omega⟩, by simp⟩
  have hwb : ∀ c ∈ (write cfg dev s a v).cells, cellInBounds cfg c ∧
      (c = Cell.rom (a - cfg.ROM_START) ∨ c = Cell.prg (a - cfg.RAM_START) ∨
       c = Cell.wav ((dev.via_rreg s.dev 0).1 &&& 3) (a - cfg.WAV_START)) := by
    intro c hc
    rcases hw with ⟨_, _, h, _⟩ | ⟨hin, h, _⟩ | ⟨_, hin, h, _⟩ <;> rw [h] at hc <;>
      simp only [List.mem_singleton, List.not_mem_nil] at hc
    · subst hc; unfold inRAM at hin; exact ⟨by simp only [cellInBounds]; omega, by simp⟩
    · subst hc; unfold inWAV at hin
      exact ⟨⟨hb, by omega⟩, by simp⟩
  refine ⟨fun c hc => (hrb c hc).1, fun c hc => (hwb c hc).1, hb, ?_, ?_, ?_, ?_⟩
  · intro c hc
    rcases List.mem_append.mp hc with h | h
    · exact (hrb c h).2
    · exact (hwb c h).2
  · rcases hr with h | ⟨_, h⟩ | ⟨_, h⟩ | ⟨_, h⟩ <;> rw [h] <;> simp
  · intro i hi
    rcases hw with ⟨_, _, _, h, _⟩ | ⟨_, hc, h, _⟩ | ⟨_, _, _, h, _⟩
    · rw [h]
    · rw [hc] at hi
      have hne : i ≠ a - cfg.RAM_START := by
        intro e; apply hi; simp [e]
      rw [h]; simp [store, hne]
    · rw [h]
  · intro p i hi
    rcases hw with ⟨_, _, _, _, h⟩ | ⟨_, _, _, h, _⟩ | ⟨_, _, hc, _, h, _⟩
    · rw [h]
    · rw [h]
    · rw [hc] at hi
      have hne : ¬ (p = (dev.via_rreg s.dev 0).1 &&& 3 ∧ i = a - cfg.WAV_START) := by
        intro e; apply hi; simp [e.1, e.2]
      rw [h]; simp only [store2, hne, if_false]

/-! ## C18: the write frame -/

/-- C18. Write frame: for every address `a` and byte `v`, `write(a, v)` changes
at most one memory cell.  If `a` is in the PRG_RAM range, only
`PRG_RAM[a - RAM_START]` may differ afterwards: no WAV_RAM cell changes and no
device call is made, whatever other range or window `a` also lies in.
Otherwise, if `a` is in the WAV_RAM range, only
`WAV_RAM[via_rreg(0) & 3][a - WAV_START]` may differ: the other banks, every
other offset and all of PRG_RAM are unchanged, and the only device call is the
register read `via_rreg(0)`.  For every other address no memory cell
changes. -/
theorem write_frame {σ : Type} (cfg : AddressMap) (dev : DeviceModel σ)
    (s : Bus σ) (a v : Nat) :
    (inRAM cfg a →
      (∀ i : Nat, i ≠ a - cfg.RAM_START →
        (write cfg dev s a v).st.PRG_RAM i = s.PRG_RAM i) ∧
      (write cfg dev s a v).st.WAV_RAM = s.WAV_RAM ∧
      (write cfg dev s a v).calls = []) ∧
    (¬ inRAM cfg a → inWAV cfg a →
      (write cfg dev s a v).st.PRG_RAM = s.PRG_RAM ∧
      (∀ p i : Nat, ¬ (p = (dev.via_rreg s.dev 0).1 &&& 3 ∧ i = a - cfg.WAV_START) →
        (write cfg dev s a v).st.WAV_RAM p i = s.WAV_RAM p i) ∧
      (write cfg dev s a v).calls = [DevCall.via_rreg 0]) ∧
    (¬ inRAM cfg a → ¬ inWAV cfg a →
      (write cfg dev s a v).st.PRG_RAM = s.PRG_RAM ∧
      (write cfg dev s a v).st.WAV_RAM = s.WAV_RAM) := by
  rcases write_cases cfg dev s a v with ⟨hnr, hnw, _, hp, hw⟩ | ⟨hr, _, hp, hw, hc⟩ |
    ⟨hnr, hw, _, hp, hwv, hc⟩
  · exact ⟨fun h => absurd h hnr, fun _ h => absurd h hnw, fun _ _ => ⟨hp, hw⟩⟩
  · refine ⟨fun _ => ⟨?_, hw, hc⟩, fun h => absurd hr h, fun h => absurd hr h⟩
    intro i hi
    rw [hp]; simp [store, hi]
  · refine ⟨fun h => absurd h hnr, fun _ _ => ⟨hp, ?_, hc⟩, fun _ h => absurd hw h⟩
    intro p i hi
    rw [hwv]; simp only [store2, hi, if_false]

theorem write_frame_witness :
    inRAM { mirageMap with WAV_END := 0xFFFF } 0x8000 ∧
    inWAV { mirageMap with WAV_END := 0xFFFF } 0x8000 ∧
    (write { mirageMap with WAV_END := 0xFFFF } latchDev (freshBus 1 0) 0x8000 0x42).st.WAV_RAM
      = (freshBus 1 0).WAV_RAM ∧
    (write { mirageMap with WAV_END := 0xFFFF } latchDev (freshBus 1 0) 0x8000 0x42).calls
      = [] ∧
    (write mirageMap latchDev (freshBus 1 0) 0x0010 0x42).st.WAV_RAM 2 0x10
      = (freshBus 1 0).WAV_RAM 2 0x10 :=
  have h1 := (write_frame { mirageMap with WAV_END := 0xFFFF } latchDev (freshBus 1 0)
    0x8000 0x42).1 (by decide)
  have h2 := (write_frame mirageMap latchDev (freshBus 1 0) 0x0010 0x42).2.1
    (by decide) (by decide)
  ⟨by decide, by decide, h1.2.1, h1.2.2, h2.2.1 2 0x10 (by decide)⟩

/-! ## Further properties of the address namer -/

/-- The crash label is dead: for any region bounds and any address,
`address_name` never returns "*cpucrash". -/
theorem address_name_never_cpucrash (cfg : AddressMap) (a : Nat) :
    address_name cfg a ≠ "*cpucrash" := by
  rcases address_name_cases cfg a with ⟨p, hp, h⟩ | h
  · rw [h]; exact (namedAddresses_labels_ne p hp).2
  · rw [h]; exact (rangeLabel_ne cfg a).2

end Mirage
